import Mathlib

/-!
Verification of the Lumia generation pipeline.

A shallow embedding, in Lean 4, of the reproducible core of the Lumia
single-page application: the exponential-backoff retry wrapper, the
base64 / PCM16 audio decoder, the response-extraction logic of the three
generation calls (letter, image, voice), and the orchestrator state
updates around reset.  Each definition is translated from the TypeScript
source (`src/unnamed/part_000`, `src/services/geminiService.ts`,
`src/App.tsx`); browser built-ins (`atob`, `Uint8Array`, `Int16Array`)
are modelled after their standard semantics.
-/

set_option autoImplicit false

namespace Lumia

/-! JavaScript string helpers: `String.prototype.includes` and
`String.prototype.toLowerCase`, modelled on the character list
underlying a Lean `String`. -/

/-- Does `pat` occur as a prefix of `l`? -/
def listHasPrefix : List Char → List Char → Bool
  | _, [] => true
  | [], _ :: _ => false
  | c :: cs, p :: ps => c == p && listHasPrefix cs ps

/-- Does `pat` occur as a contiguous run somewhere inside `l`?
Model of `String.prototype.includes`. -/
def listHasSubstr (pat : List Char) : List Char → Bool
  | [] => listHasPrefix [] pat
  | c :: cs => listHasPrefix (c :: cs) pat || listHasSubstr pat cs

/-- JavaScript `s.includes(pat)`. -/
def jsIncludes (s pat : String) : Bool :=
  listHasSubstr pat.data s.data

/-- JavaScript `s.toLowerCase()` (ASCII-relevant part, via `Char.toLower`). -/
def jsToLower (s : String) : String :=
  ⟨s.data.map Char.toLower⟩

/-! Retry wrapper (`src/unnamed/part_000`, lines 5-17):

```ts
async function callWithRetry<T>(fn, retries = 3, delay = 4000): Promise<T> {
  try { return await fn(); } catch (error) {
    const isRateLimit = error?.message?.includes("429")
      || error?.message?.toLowerCase().includes("exhausted");
    if (retries > 0 && isRateLimit) {
      await new Promise(resolve => setTimeout(resolve, delay));
      return callWithRetry(fn, retries - 1, delay * 2);
    }
    throw error;
  }
}
```

The async operation is modelled as a function from the invocation index
to an `Except` value; the wrapper returns, besides the final result, the
number of invocations performed and the list of delays waited. -/

/-- The rate-limit signature test applied to an error message:
contains `"429"`, or contains `"exhausted"` after lowercasing. -/
def isRateLimit (msg : String) : Bool :=
  jsIncludes msg ("429") || jsIncludes (jsToLower msg) ("exhausted")

/-- The wrapper `callWithRetry fn retries delay attempt` runs the
`attempt`-th invocation of the operation and retries on rate-limit
errors while budget remains, doubling the delay each time.  Returns
`(result, number of invocations, delays waited before retries)`. -/
def callWithRetry {α : Type} (fn : Nat → Except String α) :
    Nat → Nat → Nat → Except String α × Nat × List Nat
  | 0, _delay, attempt =>
    match fn attempt with
    | .ok v => (.ok v, 1, [])
    | .error e => (.error e, 1, [])
  | retries + 1, delay, attempt =>
    match fn attempt with
    | .ok v => (.ok v, 1, [])
    | .error e =>
      if isRateLimit e then
        let next := callWithRetry fn retries (delay * 2) (attempt + 1)
        (next.1, next.2.1 + 1, delay :: next.2.2)
      else (.error e, 1, [])

/-! Audio decoder (`src/unnamed/part_000`, lines 93-102):

```ts
async function decodeAudio(base64: string, ctx: AudioContext): Promise<AudioBuffer> {
  const binaryString = atob(base64);
  const bytes = new Uint8Array(binaryString.length);
  for (let i = 0; i < binaryString.length; i++) bytes[i] = binaryString.charCodeAt(i);
  const dataInt16 = new Int16Array(bytes.buffer);
  const buffer = ctx.createBuffer(1, dataInt16.length, 24000);
  const channelData = buffer.getChannelData(0);
  for (let i = 0; i < dataInt16.length; i++) channelData[i] = dataInt16[i] / 32768.0;
  return buffer;
}
```

The browser built-ins are modelled after their standard semantics:
`atob` performs a forgiving base64 decode and throws on invalid input;
`Uint8Array` element writes store the value modulo 256; constructing an
`Int16Array` view over a buffer whose byte length is not a multiple of 2
throws a `RangeError`; otherwise consecutive byte pairs are read as
little-endian signed 16-bit integers.  Channel samples are exact here
(an int16 divided by the power of two 32768 is exactly representable in
binary floating point), so they are modelled as rationals. -/

/-- The 6-bit value of one character of the standard base64 alphabet. -/
def b64Val (c : Char) : Option Nat :=
  if 'A' ≤ c ∧ c ≤ 'Z' then some (c.toNat - 65)
  else if 'a' ≤ c ∧ c ≤ 'z' then some (c.toNat - 97 + 26)
  else if '0' ≤ c ∧ c ≤ '9' then some (c.toNat - 48 + 52)
  else if c = '+' then some 62
  else if c = '/' then some 63
  else none

/-- Model of `atob`: a forgiving base64 decode over the character list
of the input.  Each group of four characters yields three bytes, the final group
may carry `=` padding or be two or three characters short, and any other
shape or alphabet violation yields `none` (the DOMException branch). -/
def atobChars : List Char → Option (List Nat)
  | [] => some []
  | [c1, c2] =>
    match b64Val c1, b64Val c2 with
    | some v1, some v2 => some [v1 * 4 + v2 / 16]
    | _, _ => none
  | [c1, c2, c3] =>
    match b64Val c1, b64Val c2, b64Val c3 with
    | some v1, some v2, some v3 => some [(v1 * 4 + v2 / 16), (v2 % 16 * 16 + v3 / 4)]
    | _, _, _ => none
  | c1 :: c2 :: c3 :: c4 :: rest =>
    if c3 = '=' ∧ c4 = '=' ∧ rest = [] then
      match b64Val c1, b64Val c2 with
      | some v1, some v2 => some [v1 * 4 + v2 / 16]
      | _, _ => none
    else if c4 = '=' ∧ rest = [] then
      match b64Val c1, b64Val c2, b64Val c3 with
      | some v1, some v2, some v3 => some [(v1 * 4 + v2 / 16), (v2 % 16 * 16 + v3 / 4)]
      | _, _, _ => none
    else
      match b64Val c1, b64Val c2, b64Val c3, b64Val c4, atobChars rest with
      | some v1, some v2, some v3, some v4, some tail =>
        some ((v1 * 4 + v2 / 16) :: (v2 % 16 * 16 + v3 / 4) :: (v3 % 4 * 64 + v4) :: tail)
      | _, _, _, _, _ => none
  | _ => none

/-- Two bytes read as one little-endian signed 16-bit integer. -/
def toInt16 (b0 b1 : Nat) : Int :=
  let n := b0 + 256 * b1
  if n < 32768 then (n : Int) else (n : Int) - 65536

/-- The `Int16Array` view over a byte sequence of even length:
consecutive little-endian byte pairs, any trailing byte ignored. -/
def int16Samples : List Nat → List Int
  | b0 :: b1 :: rest => toInt16 b0 b1 :: int16Samples rest
  | _ => []

/-- The result of `ctx.createBuffer(1, frameCount, 24000)` after the
sample-filling loop: a mono 24 kHz buffer of rational sample values. -/
structure AudioBuffer where
  numberOfChannels : Nat
  length : Nat
  sampleRate : Nat
  channelData : List ℚ
deriving DecidableEq

/-- The body of `decodeAudio` after `atob`: build the `Int16Array` view
(this throws a `RangeError` when the byte length is odd), then fill a
mono 24 kHz buffer with each sample divided by 32768. -/
def decodeAudioBytes (bytes : List Nat) : Except String AudioBuffer :=
  if bytes.length % 2 = 0 then
    let dataInt16 := int16Samples bytes
    Except.ok
      { numberOfChannels := 1
        length := dataInt16.length
        sampleRate := 24000
        channelData := dataInt16.map (fun v : ℤ => (v : ℚ) / 32768) }
  else
    Except.error ("RangeError: byte length of Int16Array should be a multiple of 2")

/-- The function `decodeAudio` of `src/unnamed/part_000` lines 93-102 (identical in
`src/services/geminiService.ts` lines 87-103): `atob` the input, store
the char codes in a `Uint8Array` (values taken modulo 256), then decode
the PCM16 payload. -/
def decodeAudio (base64 : String) : Except String AudioBuffer :=
  match atobChars base64.data with
  | none => Except.error ("InvalidCharacterError")
  | some charCodes => decodeAudioBytes (charCodes.map (fun v => v % 256))

/-! Generation client: response extraction logic of the three
generation operations (`src/unnamed/part_000` and
`src/services/geminiService.ts`). -/

/-- An inline binary payload of a response part (`inlineData`), whose
`data` field may itself be absent. -/
structure Blob where
  data : Option String
deriving DecidableEq

/-- One content part of a model response. -/
structure ResponsePart where
  inlineData : Option Blob
deriving DecidableEq

/-- JavaScript template interpolation of a possibly-absent value. -/
def jsString : Option String → String
  | some s => s
  | none => "undefined"

/-- Image extraction of `generateMemoryPortrait` in
`src/unnamed/part_000` lines 69-72: scan the parts in order, return the
first inline payload as a data URI, throw `"No image data"` if none.

```ts
for (const part of response.candidates[0].content.parts) {
  if (part.inlineData) return `data:image/png;base64,.{part.inlineData.data}`;
}
throw new Error("No image data");
``` -/
def portraitExtractFirst : List ResponsePart → Except String String
  | [] => Except.error ("No image data")
  | p :: ps =>
    match p.inlineData with
    | some b => Except.ok ("data:image/png;base64," ++ jsString b.data)
    | none => portraitExtractFirst ps

/-- Image extraction of `generateMemoryPortrait` in
`src/services/geminiService.ts` lines 61-67: start from `''`, overwrite
the accumulator at every part that carries an inline payload, return the
accumulator (so the last payload wins and no error is raised).

```ts
let imageUrl = '';
for (const part of response.candidates[0].content.parts) {
  if (part.inlineData) imageUrl = `data:image/png;base64,.{part.inlineData.data}`;
}
return imageUrl;
``` -/
def portraitExtractLast (parts : List ResponsePart) : String :=
  parts.foldl
    (fun imageUrl p =>
      match p.inlineData with
      | some b => "data:image/png;base64," ++ jsString b.data
      | none => imageUrl)
    ""

/-- The inline payloads carried by a part list, in response order. -/
def inlineBlobs (parts : List ResponsePart) : List Blob :=
  parts.filterMap ResponsePart.inlineData

/-- The `content` object of a response candidate. -/
structure CandidateContent where
  parts : Option (List ResponsePart)
deriving DecidableEq

/-- One candidate of a model response. -/
structure Candidate where
  content : Option CandidateContent
deriving DecidableEq

/-- A model response as observed by the voice-synthesis call. -/
structure VoiceResponse where
  candidates : Option (List Candidate)
deriving DecidableEq

/-- Audio extraction of `generateLetterVoice`
(`src/unnamed/part_000` line 89, `src/services/geminiService.ts`
line 84):

```ts
return response.candidates?.[0]?.content?.parts?.[0]?.inlineData?.data || '';
```

Optional chaining turns each absent level into `undefined`; `|| ''`
turns a falsy result (absent or empty payload) into `''`. -/
def generateLetterVoiceExtract (r : VoiceResponse) : String :=
  match r.candidates with
  | none => ""
  | some cs =>
    match cs.head? with
    | none => ""
    | some c =>
      match c.content with
      | none => ""
      | some ct =>
        match ct.parts with
        | none => ""
        | some ps =>
          match ps.head? with
          | none => ""
          | some p =>
            match p.inlineData with
            | none => ""
            | some b =>
              match b.data with
              | none => ""
              | some d => if d = "" then "" else d

/-- The payload the spec says `generateLetterVoice` returns: the inline
data of the first part of the first candidate's content, when every
level of the response is present. -/
def voicePayload (r : VoiceResponse) : Option String :=
  (((((r.candidates.bind List.head?).bind Candidate.content).bind
    CandidateContent.parts).bind List.head?).bind ResponsePart.inlineData).bind Blob.data

/-- The `web` object of a grounding chunk. -/
structure Web where
  uri : Option String
  title : Option String
deriving DecidableEq

/-- One grounding chunk of the letter response's grounding metadata. -/
structure GroundingChunk where
  web : Option Web
deriving DecidableEq

/-- A citation as produced by `generateEmotionalLetter`. -/
structure Citation where
  title : String
  uri : String
deriving DecidableEq

/-- JavaScript truthiness of a possibly-absent string: `undefined` and
`''` are falsy, every other string is truthy. -/
def truthy : Option String → Bool
  | none => false
  | some s => s ≠ ""

/-- Citations extraction of `generateEmotionalLetter`
(`src/services/geminiService.ts` lines 36-39):

```ts
const citations = groundingChunks
  .map((chunk: any) => chunk.web)
  .filter((web: any) => web && web.uri && web.title)
  .map((web: any) => ({ title: web.title, uri: web.uri }));
``` -/
def extractCitations (chunks : List GroundingChunk) : List Citation :=
  ((chunks.map GroundingChunk.web).filter
      (fun w =>
        match w with
        | some web => truthy web.uri && truthy web.title
        | none => false)).map
    (fun w =>
      match w with
      | some web => { title := jsString web.title, uri := jsString web.uri }
      | none => { title := jsString none, uri := jsString none })

/-- The citation list the spec describes: exactly the web entries that
have both a non-empty uri and a non-empty title, mapped unchanged to
`{title, uri}` in input order. -/
def citationsSpec (chunks : List GroundingChunk) : List Citation :=
  chunks.filterMap
    (fun c =>
      match c.web with
      | some w =>
        match w.uri, w.title with
        | some u, some t => if u ≠ "" ∧ t ≠ "" then some { title := t, uri := u } else none
        | _, _ => none
      | none => none)

/-! Client configuration (`src/unnamed/part_000`, lines 19-23; the same
helper appears in the second revision of `src/services/geminiService.ts`,
lines 109-115):

```ts
function getAI() {
  const apiKey = process.env.API_KEY;
  if (!apiKey) throw new Error("API Key is missing.");
  return new GoogleGenAI({ apiKey });
}
```

Each generation operation of `src/unnamed/part_000` first calls
`getAI()` and only then hands the network operation to `callWithRetry`.
The network is abstracted as a function from the client and the
invocation index to a result; the returned triple carries the number of
network invocations performed and the delays waited, so that failing
before any network call is visible as an invocation count of zero. -/

/-- The constructed client, holding the credential. -/
structure AIClient where
  apiKey : String
deriving DecidableEq

/-- Read the credential from the environment; `undefined` and `''` are
falsy, so both raise `"API Key is missing."` before any call is made. -/
def getAI (env : Option String) : Except String AIClient :=
  match env with
  | none => Except.error ("API Key is missing.")
  | some apiKey =>
    if apiKey = "" then Except.error ("API Key is missing.")
    else Except.ok { apiKey := apiKey }

/-- The unified letter call (`src/unnamed/part_000` lines 30-56):
`getAI`, then the model call through `callWithRetry` with budget 3 and
initial delay 4000. -/
def generateUnifiedContent {α : Type} (env : Option String)
    (net : AIClient → Nat → Except String α) :
    Except String α × Nat × List Nat :=
  match getAI env with
  | Except.error e => (Except.error e, 0, [])
  | Except.ok ai => callWithRetry (net ai) 3 4000 0

/-- The image call (`src/unnamed/part_000` lines 58-74): `getAI`, then
the model call and the first-payload extraction through `callWithRetry`
with budget 2 and initial delay 5000. -/
def generateMemoryPortrait (env : Option String)
    (net : AIClient → Nat → Except String (List ResponsePart)) :
    Except String String × Nat × List Nat :=
  match getAI env with
  | Except.error e => (Except.error e, 0, [])
  | Except.ok ai => callWithRetry (fun k => (net ai k).bind portraitExtractFirst) 2 5000 0

/-- The voice call (`src/unnamed/part_000` lines 76-91): `getAI`, then
the model call and the degraded-success extraction through
`callWithRetry` with budget 1 and initial delay 6000. -/
def generateLetterVoice (env : Option String)
    (net : AIClient → Nat → Except String VoiceResponse) :
    Except String String × Nat × List Nat :=
  match getAI env with
  | Except.error e => (Except.error e, 0, [])
  | Except.ok ai => callWithRetry (fun k => (net ai k).map generateLetterVoiceExtract) 1 6000 0

/-! Orchestrator state (`src/App.tsx`, second revision, lines 373-473):
the result state, the background completions of `loadMultimedia`, and
`reset`. -/

/-- The four moods of the input form. -/
inductive Mood where
  | nostalgic
  | bittersweet
  | hopeful
  | grieving
deriving DecidableEq

/-- The submitted memory description (`src/unnamed/part_001`-style
`types.ts`). -/
structure MemoryData where
  name : String
  relationship : String
  detail : String
  mood : Mood
deriving DecidableEq

/-- The incrementally built generation result (`types.ts`). -/
structure GenerationResult where
  letter : String
  imageUrl : String
  audioData : Option String
  citations : Option (List Citation)
deriving DecidableEq

/-- The four UI screens (`types.ts`). -/
inductive AppState where
  | LANDING
  | INPUT
  | GENERATING
  | REVEAL
deriving DecidableEq

/-- The orchestrator state touched by `reset`. -/
structure AppModel where
  state : AppState
  result : Option GenerationResult
  memory : MemoryData
  errorMsg : Option String
  quotaWait : Bool

/-- A late-arriving background completion of `loadMultimedia`
(`src/App.tsx` lines 424-447).  Each completion updates the result only
through a function of the previous value:

```ts
setResult(prev => prev ? { ...prev, imageUrl: url } : null);
setResult(prev => prev ? { ...prev, audioData: audio } : null);
``` -/
inductive BgEvent where
  | imageDone (url : String)
  | audioDone (data : String)

/-- The state-updater a background completion applies to the current
result: a present result is patched, an absent result stays absent. -/
def applyBg : Option GenerationResult → BgEvent → Option GenerationResult
  | some g, BgEvent.imageDone url => some { g with imageUrl := url }
  | none, BgEvent.imageDone _ => none
  | some g, BgEvent.audioDone d => some { g with audioData := some d }
  | none, BgEvent.audioDone _ => none

/-- The `reset` handler (`src/App.tsx` lines 466-473): back to the
landing screen, result cleared, form cleared, error state cleared (the
audio-source stop is playback-only and carries no orchestrator state). -/
def reset (m : AppModel) : AppModel :=
  { m with
    state := AppState.LANDING
    result := none
    memory := { name := "", relationship := "", detail := "", mood := Mood.nostalgic }
    errorMsg := none
    quotaWait := false }

/-! Theorems about the retry wrapper. -/

/-- Generalised form of the exhausted-budget property, for an arbitrary
starting attempt index. -/
theorem callWithRetry_rateLimited {α : Type} (fn : Nat → Except String α)
    (err : Nat → String)
    (hop : ∀ k, fn k = Except.error (err k))
    (hrl : ∀ k, isRateLimit (err k) = true) :
    ∀ (N d a : Nat), callWithRetry fn N d a =
      (Except.error (err (a + N)), N + 1, (List.range N).map (fun i => d * 2 ^ i)) := by
  intro N
  induction N with
  | zero =>
    intro d a
    simp [callWithRetry, hop a]
  | succ n ih =>
    intro d a
    have hfun : ((fun i : Nat => d * 2 ^ i) ∘ Nat.succ) = (fun i : Nat => d * 2 * 2 ^ i) := by
      funext i
      simp only [Function.comp, pow_succ]
      ring
    have hlist : (List.range (n + 1)).map (fun i => d * 2 ^ i)
        = d :: (List.range n).map (fun i => d * 2 * 2 ^ i) := by
      rw [List.range_succ_eq_map, List.map_cons, List.map_map, hfun]
      simp
    simp only [callWithRetry, hop a, hrl a, if_true]
    rw [ih (d * 2) (a + 1), hlist]
    have hidx : a + 1 + n = a + (n + 1) := by omega
    simp [hidx]

/-- C1: if every invocation fails with a rate-limit error, the retry
wrapper with budget `N` and initial delay `d` invokes the operation
exactly `N + 1` times, waits `d, 2d, 4d, ...` before the retries, and
propagates the failure of the last invocation. -/
theorem callWithRetry_quota_exhausts_budget {α : Type} (fn : Nat → Except String α)
    (err : Nat → String)
    (hop : ∀ k, fn k = Except.error (err k))
    (hrl : ∀ k, isRateLimit (err k) = true)
    (N d : Nat) :
    callWithRetry fn N d 0 =
      (Except.error (err N), N + 1, (List.range N).map (fun i => d * 2 ^ i)) := by
  have h := callWithRetry_rateLimited fn err hop hrl N d 0
  simpa using h

/-- Witness for C1 at `N = 2`, `d = 4000` and a constantly failing
rate-limited operation. -/
theorem callWithRetry_quota_exhausts_budget_witness :
    callWithRetry (fun _ => (Except.error ("429") : Except String Unit)) 2 4000 0 =
      (Except.error ("429"), 3, [4000, 8000]) := by
  have h := callWithRetry_quota_exhausts_budget
    (fun _ => (Except.error ("429") : Except String Unit)) (fun _ => ("429"))
    (fun _ => rfl) (fun _ => rfl) 2 4000
  simpa using h

/-- C2: a non-rate-limit failure is propagated unchanged after a single
invocation, with no retry and no delay, whatever the budget and delay. -/
theorem callWithRetry_non_rate_limit_once {α : Type} (fn : Nat → Except String α)
    (e : String) (retries delay : Nat)
    (hop : fn 0 = Except.error e) (hrl : isRateLimit e = false) :
    callWithRetry fn retries delay 0 = (Except.error e, 1, []) := by
  cases retries with
  | zero => simp [callWithRetry, hop]
  | succ n => simp [callWithRetry, hop, hrl]

/-- Witness for C2 at budget 3, delay 4000 and a generic failure. -/
theorem callWithRetry_non_rate_limit_once_witness :
    callWithRetry (fun _ => (Except.error ("boom") : Except String Unit)) 3 4000 0 =
      (Except.error ("boom"), 1, []) :=
  callWithRetry_non_rate_limit_once _ ("boom") 3 4000 rfl rfl

/-! Theorems about the audio decoder. -/

/-- C3 counterexample: the four-character base64 input `"AA=="` decodes
to the single byte `0x00`, an odd-length byte sequence, and `decodeAudio`
raises a `RangeError` instead of silently truncating. -/
theorem decodeAudio_odd_counterexample :
    decodeAudio ("AA==") =
      Except.error ("RangeError: byte length of Int16Array should be a multiple of 2") := by
  have h1 : atobChars ("AA==").data = some [0] := by decide
  rw [decodeAudio, h1]
  simp [decodeAudioBytes]

/-- C3 (amended): for every base64 input whose decoded byte sequence has
odd length, `decodeAudio` raises a `RangeError` (the `Int16Array`
construction over an odd-length buffer throws); no buffer is returned
and no trailing byte is silently dropped. -/
theorem decodeAudio_odd_raises_range_error (s : String) (bytes : List Nat)
    (hdec : atobChars s.data = some bytes)
    (hodd : bytes.length % 2 = 1) :
    decodeAudio s =
      Except.error ("RangeError: byte length of Int16Array should be a multiple of 2") := by
  rw [decodeAudio, hdec]
  have hlen : ¬ ((bytes.map (fun v => v % 256)).length % 2 = 0) := by
    simp only [List.length_map]
    omega
  simp [decodeAudioBytes, hlen, hodd]

/-- Witness for the amended C3 at the concrete input `"AA=="`. -/
theorem decodeAudio_odd_raises_range_error_witness :
    decodeAudio ("AA==") =
      Except.error ("RangeError: byte length of Int16Array should be a multiple of 2") :=
  decodeAudio_odd_raises_range_error ("AA==") [0] (by decide) (by decide)

/-- C4: the base64 payload encoding the little-endian int16 samples
`[0, 16384, -16384, 32767]` decodes to a mono buffer with exactly 4
frames at 24000 Hz whose sample values are `0`, `16384/32768 = 1/2`,
`-16384/32768 = -1/2` and `32767/32768`. -/
theorem decodeAudio_known_payload :
    decodeAudio ("AAAAQADA/38=") =
      Except.ok { numberOfChannels := 1, length := 4, sampleRate := 24000,
                  channelData := [0, 1/2, -1/2, 32767/32768] } := by
  have h1 : atobChars ("AAAAQADA/38=").data = some [0, 0, 0, 64, 0, 192, 255, 127] := by
    decide
  have h2 : int16Samples ([0, 0, 0, 64, 0, 192, 255, 127].map (fun v => v % 256)) =
      [0, 16384, -16384, 32767] := by decide
  rw [decodeAudio, h1]
  simp only [decodeAudioBytes, h2]
  norm_num

/-- Every value produced by the `Int16Array` view over genuine bytes
lies in the signed 16-bit range. -/
theorem int16Samples_mem_bounds :
    ∀ (l : List Nat), (∀ b ∈ l, b < 256) → ∀ v ∈ int16Samples l, -32768 ≤ v ∧ v ≤ 32767
  | [], _, v, hv => by simp [int16Samples] at hv
  | [b], _, v, hv => by simp [int16Samples] at hv
  | b0 :: b1 :: rest, hb, v, hv => by
    rw [int16Samples] at hv
    rcases List.mem_cons.mp hv with h | h
    · subst h
      have h0 : b0 < 256 := hb b0 (by simp)
      have h1 : b1 < 256 := hb b1 (by simp)
      simp only [toInt16]
      split <;> omega
    · exact int16Samples_mem_bounds rest (fun b hbm => hb b (by simp [hbm])) v h

/-- C10: every sample in a buffer returned by `decodeAudio` is a signed
16-bit value divided by 32768, and so lies in the half-open interval
`[-1, 1)`. -/
theorem decodeAudio_samples_normalized_range (s : String) (buf : AudioBuffer)
    (h : decodeAudio s = Except.ok buf) :
    ∀ x ∈ buf.channelData,
      (∃ v : ℤ, -32768 ≤ v ∧ v ≤ 32767 ∧ x = (v : ℚ) / 32768) ∧ -1 ≤ x ∧ x < 1 := by
  intro x hx
  rw [decodeAudio] at h
  cases hdec : atobChars s.data with
  | none => rw [hdec] at h; exact absurd h (by simp)
  | some codes =>
    rw [hdec] at h
    simp only [decodeAudioBytes] at h
    by_cases hev : (codes.map (fun v => v % 256)).length % 2 = 0
    · rw [if_pos hev] at h
      cases h
      obtain ⟨v, hvmem, hvx⟩ := List.mem_map.mp hx
      have hbytes : ∀ b ∈ codes.map (fun v => v % 256), b < 256 := by
        intro b hb
        simp only [List.mem_map] at hb
        obtain ⟨c, _, rfl⟩ := hb
        omega
      have hbound := int16Samples_mem_bounds (codes.map (fun v => v % 256)) hbytes v hvmem
      subst hvx
      have h32 : (0 : ℚ) < 32768 := by norm_num
      refine ⟨⟨v, hbound.1, hbound.2, rfl⟩, ?_, ?_⟩
      · rw [le_div_iff₀ h32]
        have : ((-32768 : ℤ) : ℚ) ≤ (v : ℚ) := Int.cast_le.mpr hbound.1
        push_cast at this ⊢
        linarith
      · rw [div_lt_iff₀ h32]
        have : ((v : ℤ) : ℚ) ≤ ((32767 : ℤ) : ℚ) := Int.cast_le.mpr hbound.2
        push_cast at this ⊢
        linarith
    · rw [if_neg hev] at h
      exact absurd h (by simp)

/-- Witness for C10: the sample `1/2` of the concrete payload of C4 is
of the stated form and lies in `[-1, 1)`. -/
theorem decodeAudio_samples_normalized_range_witness :
    (∃ v : ℤ, -32768 ≤ v ∧ v ≤ 32767 ∧ (1/2 : ℚ) = (v : ℚ) / 32768) ∧
      -1 ≤ (1/2 : ℚ) ∧ (1/2 : ℚ) < 1 := by
  have hdec : decodeAudio ("AAAAQADA/38=") =
      Except.ok { numberOfChannels := 1, length := 4, sampleRate := 24000,
                  channelData := [0, 1/2, -1/2, 32767/32768] } := by
    have h1 : atobChars ("AAAAQADA/38=").data = some [0, 0, 0, 64, 0, 192, 255, 127] := by
      decide
    have h2 : int16Samples ([0, 0, 0, 64, 0, 192, 255, 127].map (fun v => v % 256)) =
        [0, 16384, -16384, 32767] := by decide
    rw [decodeAudio, h1]
    simp only [decodeAudioBytes, h2]
    norm_num
  have hmem : (1/2 : ℚ) ∈ [(0 : ℚ), 1/2, -1/2, 32767/32768] := by
    simp
  exact decodeAudio_samples_normalized_range ("AAAAQADA/38=") _ hdec (1/2) hmem

/-! Theorems about the generation client. -/

/-- Skipping a part without an inline payload. -/
theorem inlineBlobs_cons_none {p : ResponsePart} (ps : List ResponsePart)
    (hp : p.inlineData = none) : inlineBlobs (p :: ps) = inlineBlobs ps := by
  simp [inlineBlobs, List.filterMap_cons, hp]

/-- Collecting a part that carries an inline payload. -/
theorem inlineBlobs_cons_some {p : ResponsePart} {b : Blob} (ps : List ResponsePart)
    (hp : p.inlineData = some b) : inlineBlobs (p :: ps) = b :: inlineBlobs ps := by
  simp [inlineBlobs, List.filterMap_cons, hp]

/-- The first-variant image extraction returns the data URI of the
first inline payload, or fails with `"No image data"`. -/
theorem portraitExtractFirst_eq_head (parts : List ResponsePart) :
    portraitExtractFirst parts =
      (match (inlineBlobs parts).head? with
       | some b => Except.ok ("data:image/png;base64," ++ jsString b.data)
       | none => Except.error ("No image data")) := by
  induction parts with
  | nil => rfl
  | cons p ps ih =>
    cases hp : p.inlineData with
    | none =>
      rw [inlineBlobs_cons_none ps hp]
      simp only [portraitExtractFirst, hp]
      exact ih
    | some b =>
      rw [inlineBlobs_cons_some ps hp]
      simp only [portraitExtractFirst, hp, List.head?_cons]

/-- The second-variant image extraction, from an arbitrary accumulator:
the last inline payload wins, the accumulator survives when there is
none. -/
theorem portraitExtractLast_foldl :
    ∀ (parts : List ResponsePart) (a : String),
      parts.foldl
        (fun imageUrl p =>
          match p.inlineData with
          | some b => "data:image/png;base64," ++ jsString b.data
          | none => imageUrl) a =
      (match (inlineBlobs parts).getLast? with
       | some b => "data:image/png;base64," ++ jsString b.data
       | none => a) := by
  intro parts
  induction parts with
  | nil => intro a; rfl
  | cons p ps ih =>
    intro a
    rw [List.foldl_cons]
    cases hp : p.inlineData with
    | none =>
      rw [inlineBlobs_cons_none ps hp]
      simp only [hp]
      exact ih a
    | some b =>
      rw [inlineBlobs_cons_some ps hp]
      simp only [hp]
      rw [ih ("data:image/png;base64," ++ jsString b.data)]
      cases hq : inlineBlobs ps with
      | nil => simp
      | cons c cs =>
        rw [List.getLast?_cons_cons]
        cases hl : (c :: cs).getLast? with
        | some d => rfl
        | none => exact absurd (List.getLast?_eq_none_iff.mp hl) (by simp)

/-- C5 counterexample: on a response whose parts carry two inline
payloads, the `geminiService.ts` variant of `generateMemoryPortrait`
returns the data URI of the LAST payload, not the first, and on a
response with no inline payload it returns the empty string instead of
failing with a `"no image data"` error. -/
theorem portrait_last_variant_counterexample :
    portraitExtractLast
        [{ inlineData := some { data := some ("A") } },
         { inlineData := some { data := some ("B") } }] =
      "data:image/png;base64,B" ∧
    portraitExtractLast
        [{ inlineData := some { data := some ("A") } },
         { inlineData := some { data := some ("B") } }] ≠
      "data:image/png;base64,A" ∧
    portraitExtractLast [] = "" := by
  refine ⟨rfl, ?_, rfl⟩
  decide

/-- C5 (amended): the `part_000` variant of `generateMemoryPortrait`
scans the parts in order and returns the FIRST inline payload as a
`data:image/png;base64,` URI, failing with `"No image data"` when no
part carries one; the `geminiService.ts` variant instead returns the
LAST inline payload as a data URI and yields the empty string, not an
error, when no part carries one. -/
theorem portrait_extract_variants (parts : List ResponsePart) :
    portraitExtractFirst parts =
      (match (inlineBlobs parts).head? with
       | some b => Except.ok ("data:image/png;base64," ++ jsString b.data)
       | none => Except.error ("No image data")) ∧
    portraitExtractLast parts =
      (match (inlineBlobs parts).getLast? with
       | some b => "data:image/png;base64," ++ jsString b.data
       | none => "") :=
  ⟨portraitExtractFirst_eq_head parts, portraitExtractLast_foldl parts ""⟩

/-- C7: the extracted citations are exactly the web entries having both
a non-empty uri and a non-empty title, each mapped unchanged to
`{title, uri}`, in input order; entries missing the web object or
either field are excluded. -/
theorem extractCitations_eq_spec (chunks : List GroundingChunk) :
    extractCitations chunks = citationsSpec chunks := by
  induction chunks with
  | nil => rfl
  | cons c cs ih =>
    cases hw : c.web with
    | none =>
      simpa [extractCitations, citationsSpec, List.filter_cons, List.filterMap_cons, hw,
        truthy] using ih
    | some w =>
      cases hu : w.uri with
      | none =>
        simpa [extractCitations, citationsSpec, List.filter_cons, List.filterMap_cons, hw,
          hu, truthy] using ih
      | some u =>
        cases ht : w.title with
        | none =>
          simpa [extractCitations, citationsSpec, List.filter_cons, List.filterMap_cons,
            hw, hu, ht, truthy] using ih
        | some t =>
          by_cases hue : u = ""
          · simpa [extractCitations, citationsSpec, List.filter_cons, List.filterMap_cons,
              hw, hu, ht, hue, truthy] using ih
          · by_cases hte : t = ""
            · simpa [extractCitations, citationsSpec, List.filter_cons,
                List.filterMap_cons, hw, hu, ht, hue, hte, truthy] using ih
            · simpa [extractCitations, citationsSpec, List.filter_cons,
                List.filterMap_cons, hw, hu, ht, hue, hte, truthy, jsString] using ih

/-- C8: the voice extraction returns the inline payload of the first
part of the first candidate's content, and the empty string (a value,
not an error) whenever the payload is absent at any level of the
response. -/
theorem generateLetterVoice_payload_or_empty (r : VoiceResponse) :
    generateLetterVoiceExtract r = (voicePayload r).getD "" := by
  rcases r with ⟨cs⟩
  cases cs with
  | none => rfl
  | some l =>
    cases l with
    | nil => rfl
    | cons c ctail =>
      rcases c with ⟨ct⟩
      cases ct with
      | none => rfl
      | some content =>
        rcases content with ⟨ps⟩
        cases ps with
        | none => rfl
        | some pl =>
          cases pl with
          | nil => rfl
          | cons p ptail =>
            rcases p with ⟨ib⟩
            cases ib with
            | none => rfl
            | some b =>
              rcases b with ⟨d⟩
              cases d with
              | none => rfl
              | some s =>
                by_cases hs : s = "" <;>
                  simp [generateLetterVoiceExtract, voicePayload, hs]

/-- C9: with the credential absent from the environment (`undefined` or
the empty string), each of the three generation operations fails with
`"API Key is missing."` having performed zero network invocations. -/
theorem missing_api_key_fails_before_network {α : Type}
    (env : Option String) (henv : env = none ∨ env = some "")
    (netU : AIClient → Nat → Except String α)
    (netP : AIClient → Nat → Except String (List ResponsePart))
    (netV : AIClient → Nat → Except String VoiceResponse) :
    generateUnifiedContent env netU = (Except.error ("API Key is missing."), 0, []) ∧
    generateMemoryPortrait env netP = (Except.error ("API Key is missing."), 0, []) ∧
    generateLetterVoice env netV = (Except.error ("API Key is missing."), 0, []) := by
  rcases henv with h | h <;> subst h <;> exact ⟨rfl, rfl, rfl⟩

/-- Witness for C9 with the credential undefined and network operations
that would report having been reached. -/
theorem missing_api_key_fails_before_network_witness :
    generateUnifiedContent none (fun _ _ => (Except.error ("reached") : Except String Unit)) =
      (Except.error ("API Key is missing."), 0, []) ∧
    generateMemoryPortrait none (fun _ _ => Except.error ("reached")) =
      (Except.error ("API Key is missing."), 0, []) ∧
    generateLetterVoice none (fun _ _ => Except.error ("reached")) =
      (Except.error ("API Key is missing."), 0, []) :=
  missing_api_key_fails_before_network none (Or.inl rfl) _ _ _

/-! Theorems about the orchestrator. -/

/-- C6: `reset` clears the result, and any sequence of late-arriving
background completions applied afterwards leaves it cleared, because
each completion updates the result only through a function of the
previous value that maps `null` to `null`. -/
theorem reset_blocks_late_background_completions (m : AppModel) (events : List BgEvent) :
    (reset m).result = none ∧ events.foldl applyBg (reset m).result = none := by
  refine ⟨rfl, ?_⟩
  have h : (reset m).result = none := rfl
  rw [h]
  induction events with
  | nil => rfl
  | cons e es ih =>
    rw [List.foldl_cons]
    cases e <;> exact ih

end Lumia
